import Mathlib

/-!
Verification development for the Options-Data-Processing-Platform repository.

The Python sources are shallowly embedded as follows:

* Python exceptions are modelled by the error monad `Except PyErr`.
* numpy double-precision arithmetic (as used in `premium_analyzer.py`) is
  modelled by `RFloat`: an idealized IEEE value that is either a finite real
  number, `+inf`, `-inf` or `NaN`.  numpy never raises on division by zero,
  it produces `inf`/`NaN`; the `RFloat` operations reproduce that.
* plain Python `float` division (as used in `margin_calculator.py` and in the
  pure-Python parts of `premium_analyzer.py`) raises `ZeroDivisionError` on a
  zero divisor; this is modelled by `pydiv` / `qdiv`.
* the margin module performs only field arithmetic on broker-quoted numbers,
  so its values are modelled exactly by rationals.
* Python dictionaries keyed by strings are modelled by association lists;
  `dict.get(k, 0)` becomes `(l.lookup k).getD 0` and `dict[k]` becomes a
  lookup that raises `KeyError` when the key is absent.
-/

/-- Python exception kinds relevant to this code base.  `domainError` is the
DomainError taxonomy of spec section 7 (modelled from the spec: the source never
defines or raises such an error; the constructor exists so that spec-level
claims about it can be stated). -/
inductive PyErr where
  | zeroDivision
  | keyError (key : String)
  | attributeError (attr : String)
  | valueError (msg : String)
  | domainError (msg : String)
deriving DecidableEq, Repr

/-- Option side, `CE` (call) or `PE` (put), as used by `premium_analyzer.py`. -/
inductive Side where
  | CE
  | PE
deriving DecidableEq, Repr

/-- Idealized IEEE double: a finite real, an infinity, or `NaN`.
Finite values are idealized as exact reals; the special values and their
propagation follow IEEE-754 (and hence numpy) semantics.  The sign of zero
is not tracked; a finite zero is treated as `+0.0`. -/
inductive RFloat where
  | fin (x : ℝ)
  | inf
  | ninf
  | nan

/-- IEEE addition. -/
noncomputable def RFloat.add : RFloat → RFloat → RFloat
  | fin x, fin y => fin (x + y)
  | nan, _ => nan
  | _, nan => nan
  | inf, ninf => nan
  | ninf, inf => nan
  | inf, _ => inf
  | _, inf => inf
  | ninf, _ => ninf
  | _, ninf => ninf

/-- IEEE subtraction. -/
noncomputable def RFloat.sub : RFloat → RFloat → RFloat
  | fin x, fin y => fin (x - y)
  | nan, _ => nan
  | _, nan => nan
  | inf, inf => nan
  | ninf, ninf => nan
  | inf, _ => inf
  | ninf, _ => ninf
  | _, inf => ninf
  | _, ninf => inf

/-- IEEE negation. -/
noncomputable def RFloat.neg : RFloat → RFloat
  | fin x => fin (-x)
  | inf => ninf
  | ninf => inf
  | nan => nan

/-- IEEE multiplication (`0 * inf = NaN`). -/
noncomputable def RFloat.mul : RFloat → RFloat → RFloat
  | fin x, fin y => fin (x * y)
  | nan, _ => nan
  | _, nan => nan
  | inf, inf => inf
  | inf, ninf => ninf
  | ninf, inf => ninf
  | ninf, ninf => inf
  | inf, fin y => if y = 0 then nan else if 0 < y then inf else ninf
  | fin x, inf => if x = 0 then nan else if 0 < x then inf else ninf
  | ninf, fin y => if y = 0 then nan else if 0 < y then ninf else inf
  | fin x, ninf => if x = 0 then nan else if 0 < x then ninf else inf

/-- IEEE division (`x / 0 = ±inf` for `x ≠ 0`, `0 / 0 = NaN`, `inf / inf = NaN`).
A finite zero divisor is treated as `+0.0`. -/
noncomputable def RFloat.div : RFloat → RFloat → RFloat
  | nan, _ => nan
  | _, nan => nan
  | fin x, fin y =>
      if y = 0 then (if x = 0 then nan else if 0 < x then inf else ninf)
      else fin (x / y)
  | fin _, inf => fin 0
  | fin _, ninf => fin 0
  | inf, fin y => if 0 ≤ y then inf else ninf
  | ninf, fin y => if 0 ≤ y then ninf else inf
  | inf, inf => nan
  | inf, ninf => nan
  | ninf, inf => nan
  | ninf, ninf => nan

/-- Squaring, the `** 2` of the source, on IEEE values. -/
noncomputable def RFloat.sq (a : RFloat) : RFloat := a.mul a

/-- Model of `np.sqrt` (negative argument gives `NaN`). -/
noncomputable def RFloat.sqrt : RFloat → RFloat
  | fin x => if x < 0 then nan else fin (Real.sqrt x)
  | inf => inf
  | ninf => nan
  | nan => nan

/-- Model of `np.log` (`log 0 = -inf`, negative argument gives `NaN`). -/
noncomputable def RFloat.log : RFloat → RFloat
  | fin x => if x < 0 then nan else if x = 0 then ninf else fin (Real.log x)
  | inf => inf
  | ninf => nan
  | nan => nan

/-- Model of `np.exp`. -/
noncomputable def RFloat.exp : RFloat → RFloat
  | fin x => fin (Real.exp x)
  | inf => inf
  | ninf => fin 0
  | nan => nan

/-- Model of `scipy.stats.norm.cdf`, parametrized by the real standard-normal cdf `Φ`
(`cdf inf = 1`, `cdf (-inf) = 0`, `cdf NaN = NaN`). -/
noncomputable def RFloat.cdf (Φ : ℝ → ℝ) : RFloat → RFloat
  | fin x => fin (Φ x)
  | inf => fin 1
  | ninf => fin 0
  | nan => nan

/-- Model of `scipy.stats.norm.pdf`, parametrized by the real standard-normal density `φ`
(`pdf (±inf) = 0`, `pdf NaN = NaN`). -/
noncomputable def RFloat.pdf (φ : ℝ → ℝ) : RFloat → RFloat
  | fin x => fin (φ x)
  | inf => fin 0
  | ninf => fin 0
  | nan => nan

/-- Python `<` on floats (`NaN` compares false against everything). -/
noncomputable def RFloat.lt : RFloat → RFloat → Bool
  | nan, _ => false
  | _, nan => false
  | fin x, fin y => decide (x < y)
  | ninf, ninf => false
  | inf, inf => false
  | ninf, _ => true
  | _, inf => true
  | inf, _ => false
  | _, ninf => false

/-- Python `max(a, b)`: returns `b` iff `a < b` (so `max(0, NaN) = 0`). -/
noncomputable def RFloat.pymax (a b : RFloat) : RFloat := if a.lt b then b else a

/-- Python `abs` on floats. -/
noncomputable def RFloat.pyabs : RFloat → RFloat
  | fin x => fin |x|
  | inf => inf
  | ninf => inf
  | nan => nan

/-- Structural test against `+inf`; coincides with Python `x == float("inf")`
for every float `x` (in particular `NaN == inf` is `False`). -/
def RFloat.isInf : RFloat → Bool
  | inf => true
  | _ => false

/-- Plain Python `float` division: raises `ZeroDivisionError` on a zero
divisor, otherwise behaves like IEEE division. -/
noncomputable def pydiv (a b : RFloat) : Except PyErr RFloat :=
  match b with
  | .fin y => if y = 0 then .error .zeroDivision else .ok (a.div b)
  | _ => .ok (a.div b)

/-! Premium analyzer (src/src/premium_analyzer.py). -/

/-- The constant `self.risk_free_rate = 0.05` set in `PremiumAnalyzer.__init__`. -/
noncomputable def risk_free_rate : ℝ := 0.05

/-- Embedding of `_calculate_theoretical_premium` (premium_analyzer.py lines 116-151).
`Φ` is the real standard-normal cdf used by `scipy.stats.norm.cdf`.
The body raises no Python exception: all arithmetic is numpy IEEE
arithmetic, so a zero divisor yields `inf`/`NaN`, never an error. -/
noncomputable def calculate_theoretical_premium (Φ : ℝ → ℝ)
    (current_price strike_price : ℝ) (days_to_expiry : ℤ)
    (volatility : ℝ) (side : Side) : Except PyErr RFloat :=
  let T : ℝ := (days_to_expiry : ℝ) / 365
  let sigma := volatility
  let S := current_price
  let K := strike_price
  let r := risk_free_rate
  let d1 := RFloat.div
    (RFloat.add (RFloat.log (RFloat.div (.fin S) (.fin K)))
      (RFloat.mul (RFloat.add (.fin r) (RFloat.div ((RFloat.fin sigma).sq) (.fin 2))) (.fin T)))
    (RFloat.mul (.fin sigma) (RFloat.sqrt (.fin T)))
  let d2 := RFloat.sub d1 (RFloat.mul (.fin sigma) (RFloat.sqrt (.fin T)))
  let premium :=
    match side with
    | .CE => RFloat.sub (RFloat.mul (.fin S) (RFloat.cdf Φ d1))
        (RFloat.mul (RFloat.mul (.fin K) (RFloat.exp (RFloat.mul (RFloat.neg (.fin r)) (.fin T))))
          (RFloat.cdf Φ d2))
    | .PE => RFloat.sub
        (RFloat.mul (RFloat.mul (.fin K) (RFloat.exp (RFloat.mul (RFloat.neg (.fin r)) (.fin T))))
          (RFloat.cdf Φ (RFloat.neg d2)))
        (RFloat.mul (.fin S) (RFloat.cdf Φ (RFloat.neg d1)))
  .ok premium

/-- The Greeks record returned by `_calculate_greeks`. -/
structure Greeks where
  delta : RFloat
  gamma : RFloat
  theta : RFloat
  vega : RFloat

/-- Embedding of `_calculate_greeks` (premium_analyzer.py lines 153-203).  `Φ` / `φ` are the
real standard-normal cdf / density behind `scipy.stats.norm`.  Like the
premium, the body raises no Python exception. -/
noncomputable def calculate_greeks (Φ φ : ℝ → ℝ)
    (current_price strike_price : ℝ) (days_to_expiry : ℤ)
    (volatility : ℝ) (side : Side) : Except PyErr Greeks :=
  let T : ℝ := (days_to_expiry : ℝ) / 365
  let sigma := volatility
  let S := current_price
  let K := strike_price
  let r := risk_free_rate
  let d1 := RFloat.div
    (RFloat.add (RFloat.log (RFloat.div (.fin S) (.fin K)))
      (RFloat.mul (RFloat.add (.fin r) (RFloat.div ((RFloat.fin sigma).sq) (.fin 2))) (.fin T)))
    (RFloat.mul (.fin sigma) (RFloat.sqrt (.fin T)))
  let d2 := RFloat.sub d1 (RFloat.mul (.fin sigma) (RFloat.sqrt (.fin T)))
  let delta :=
    match side with
    | .CE => RFloat.cdf Φ d1
    | .PE => RFloat.sub (RFloat.cdf Φ d1) (.fin 1)
  let gamma := RFloat.div (RFloat.pdf φ d1)
    (RFloat.mul (RFloat.mul (.fin S) (.fin sigma)) (RFloat.sqrt (.fin T)))
  let theta :=
    match side with
    | .CE => RFloat.sub
        (RFloat.div (RFloat.mul (RFloat.mul (RFloat.neg (.fin S)) (RFloat.pdf φ d1)) (.fin sigma))
          (RFloat.mul (.fin 2) (RFloat.sqrt (.fin T))))
        (RFloat.mul (RFloat.mul (RFloat.mul (.fin r) (.fin K))
          (RFloat.exp (RFloat.mul (RFloat.neg (.fin r)) (.fin T)))) (RFloat.cdf Φ d2))
    | .PE => RFloat.add
        (RFloat.div (RFloat.mul (RFloat.mul (RFloat.neg (.fin S)) (RFloat.pdf φ d1)) (.fin sigma))
          (RFloat.mul (.fin 2) (RFloat.sqrt (.fin T))))
        (RFloat.mul (RFloat.mul (RFloat.mul (.fin r) (.fin K))
          (RFloat.exp (RFloat.mul (RFloat.neg (.fin r)) (.fin T)))) (RFloat.cdf Φ (RFloat.neg d2)))
  let vega := RFloat.mul (RFloat.mul (.fin S) (RFloat.sqrt (.fin T))) (RFloat.pdf φ d1)
  .ok ⟨delta, gamma, theta, vega⟩

/-- Embedding of `_calculate_max_profit` (premium_analyzer.py lines 205-225):
`float("inf")` for a call, `max(0, strike_price - premium)` for a put. -/
noncomputable def calculate_max_profit (premium strike_price : RFloat) (side : Side) : RFloat :=
  match side with
  | .CE => RFloat.inf
  | .PE => RFloat.pymax (.fin 0) (RFloat.sub strike_price premium)

/-- Embedding of `_calculate_max_loss` (premium_analyzer.py lines 227-244): the premium paid. -/
noncomputable def calculate_max_loss (premium _strike_price : RFloat) (_side : Side) : RFloat :=
  premium

/-- Line 266 of premium_analyzer.py:
`abs(max_loss / max_profit) if max_profit != float("inf") else 0`.
The division is plain Python float division, so a zero `max_profit`
raises `ZeroDivisionError`. -/
noncomputable def riskReward (max_loss max_profit : RFloat) : Except PyErr RFloat :=
  if max_profit.isInf then .ok (.fin 0)
  else (pydiv max_loss max_profit).map RFloat.pyabs

/-- The risk-metrics record returned by `_calculate_risk_metrics`; the first
field is the dict key spelled `risk_reward_ratio` in the source. -/
structure RiskMetrics where
  riskRewardRatioField : RFloat
  annual_return_potential : RFloat
  volatility_adjusted_return : RFloat

/-- Embedding of `_calculate_risk_metrics` (premium_analyzer.py lines 246-278). -/
noncomputable def calculate_risk_metrics (premium max_profit max_loss volatility : RFloat) :
    Except PyErr RiskMetrics := do
  let rr ← riskReward max_loss max_profit
  let annual ← (pydiv (RFloat.sub max_profit premium) premium).map
    (fun x => RFloat.mul x (.fin 100))
  let volAdj ← pydiv annual volatility
  .ok ⟨rr, annual, volAdj⟩

/-- The attributes the `DataValidator` class (`src/src/utils/data_validator.py`)
actually defines: the `patterns` instance attribute and its two methods.
There is no `validate_premium_inputs` attribute. -/
def DataValidator.attrs : List String := ["patterns", "validate_inputs", "validate_margin_inputs"]

/-- The report dict returned by `calculate_premium_metrics`. -/
structure PremiumMetrics where
  premium : RFloat
  total_premium : RFloat
  daily_theta_decay : RFloat
  greeks : Greeks
  max_profit : RFloat
  max_loss : RFloat
  risk_metrics : RiskMetrics

/-- Embedding of `calculate_premium_metrics` (premium_analyzer.py lines 38-114).  Its first
statement calls `self.validator.validate_premium_inputs(...)`; Python attribute
lookup on the `DataValidator` instance raises `AttributeError` when the class
does not define the attribute, which is modelled by the membership test on
`DataValidator.attrs`.  (The guarded branch carries the remaining statements of
the body; it is unreachable because the attribute is absent.) -/
noncomputable def calculate_premium_metrics (Φ φ : ℝ → ℝ)
    (current_price strike_price : ℝ) (days_to_expiry : ℤ)
    (volatility : ℝ) (side : Side) (lot_size : ℤ) : Except PyErr PremiumMetrics :=
  if "validate_premium_inputs" ∈ DataValidator.attrs then do
    let greeks ← calculate_greeks Φ φ current_price strike_price days_to_expiry volatility side
    let premium ← calculate_theoretical_premium Φ current_price strike_price days_to_expiry
      volatility side
    let total_premium := RFloat.mul premium (.fin (lot_size : ℝ))
    let daily_decay := RFloat.pyabs greeks.theta
    let max_profit := calculate_max_profit premium (.fin strike_price) side
    let max_loss := calculate_max_loss premium (.fin strike_price) side
    let risk_metrics ← calculate_risk_metrics premium max_profit max_loss (.fin volatility)
    .ok ⟨premium, total_premium, daily_decay, greeks, max_profit, max_loss, risk_metrics⟩
  else .error (.attributeError "validate_premium_inputs")

/-- Python `dict[k]` on a string-keyed float dict: `KeyError` when absent. -/
def dictGet (m : List (String × RFloat)) (k : String) : Except PyErr RFloat :=
  match m.lookup k with
  | some v => .ok v
  | none => .error (.keyError k)

/-- One row of the decay DataFrame built by `analyze_premium_decay`. -/
structure DecayRow where
  days : ℤ
  premium : RFloat
  decay_amount : RFloat
  decay_percentage : RFloat

/-- Embedding of `analyze_premium_decay` (premium_analyzer.py lines 280-308).  Note the
source subscripts the metrics dict with the key "pre mium" (with a space)
on line 299, while the decay-percentage line 305 uses "premium".  Dict
accesses are performed in source order for each `days` in `time_points`. -/
noncomputable def analyze_premium_decay (premium_metrics : List (String × RFloat)) :
    List ℤ → Except PyErr (List DecayRow)
  | [] => .ok []
  | days :: rest => do
    let dtd ← dictGet premium_metrics "daily_theta_decay"
    let theta_decay := RFloat.mul dtd (.fin (days : ℝ))
    let pm ← dictGet premium_metrics "pre mium"
    let remaining_premium := RFloat.pymax (.fin 0) (RFloat.sub pm theta_decay)
    let p ← dictGet premium_metrics "premium"
    let pct ← (pydiv theta_decay p).map (fun x => RFloat.mul x (.fin 100))
    let rows ← analyze_premium_decay premium_metrics rest
    .ok ({ days := days, premium := remaining_premium, decay_amount := theta_decay,
           decay_percentage := pct } :: rows)

/-- The real-valued Black-Scholes price that `calculate_theoretical_premium`
computes on positive inputs (proved in `calculate_theoretical_premium_fin`). -/
noncomputable def bsPrice (Φ : ℝ → ℝ) (S K T sigma : ℝ) (side : Side) : ℝ :=
  let d1 := (Real.log (S / K) + (risk_free_rate + sigma * sigma / 2) * T) / (sigma * Real.sqrt T)
  let d2 := d1 - sigma * Real.sqrt T
  match side with
  | .CE => S * Φ d1 - K * Real.exp (-risk_free_rate * T) * Φ d2
  | .PE => K * Real.exp (-risk_free_rate * T) * Φ (-d2) - S * Φ (-d1)

/-- The constant function `1/2`: a symmetric cdf used to instantiate
parity statements at a concrete cdf. -/
noncomputable def constHalf : ℝ → ℝ := fun _ => (1 : ℝ) / 2

/-! Margin calculator (src/src/margin_calculator.py).

Broker-quoted margin figures and the fixed multipliers are decimal numbers;
their arithmetic in this module (multiplication, addition, one division) is
modelled exactly over `ℚ`. -/

/-- Python `float` division over the exact rational model of the margin
module: raises `ZeroDivisionError` on a zero divisor. -/
def qdiv (a b : ℚ) : Except PyErr ℚ :=
  if b = 0 then .error .zeroDivision else .ok (a / b)

/-- The dict `self.margin_multipliers` as initialized in `MarginCalculator.__init__`
(`nfo`, `exposure`, `span` keys). -/
structure MarginMultipliers where
  nfo : ℚ
  exposure : ℚ
  span : ℚ
deriving DecidableEq, Repr

/-- The standard multipliers set in `__init__`:
nfo = 1.0, exposure = 0.5, span = 1.0. -/
def defaultMarginMultipliers : MarginMultipliers :=
  { nfo := 1, exposure := 1/2, span := 1 }

/-- The broker JSON for `fetch_margin_requirements`: a string-keyed dict of
numbers, read with `.get(key, 0)`. -/
abbrev RawMargin := List (String × ℚ)

/-- The external broker API (`APIHandler.fetch_margin_requirements`), an
external collaborator modelled as a deterministic function of the request
arguments `(instrument_name, strike_price, side, qty, position_type)`. -/
abbrev MarginApi := String → ℚ → String → ℤ → String → RawMargin

/-- Reading a raw margin dict with `dict.get(k, 0)`. -/
def rawGet (raw : RawMargin) (k : String) : ℚ := (raw.lookup k).getD 0

/-- Truthiness of the Python regex match of pattern ^[A-Z]+$ against s:
one or more uppercase ASCII letters
(Python `$` also matches just before one trailing newline). -/
def matchesUpper (s : String) : Bool :=
  let cs := s.toList
  let core := if cs.getLast? = some '\n' then cs.dropLast else cs
  decide (core ≠ []) && core.all (fun c => decide ('A' ≤ c) && decide (c ≤ 'Z'))

/-- Embedding of `DataValidator.validate_margin_inputs` (data_validator.py lines 62-96);
checks run in source order, each failure raising `ValueError`.  (The quote
characters of the original messages are omitted.) -/
def validate_margin_inputs (instrument_name : String) (strike_price : ℚ)
    (side : String) (qty : ℤ) (position_type : String) : Except PyErr Unit :=
  if matchesUpper instrument_name = false then
    .error (.valueError "Invalid instrument name format")
  else if strike_price ≤ 0 then
    .error (.valueError "Strike price must be positive")
  else if side ∉ ["CE", "PE"] then
    .error (.valueError "Side must be either CE or PE")
  else if qty ≤ 0 then
    .error (.valueError "Quantity must be positive")
  else if position_type ∉ ["buy", "sell"] then
    .error (.valueError "Position type must be either buy or sell")
  else .ok ()

/-- The dict returned by `calculate_position_margin`; the nested `breakdown`
dict of the source is flattened into the last four fields. -/
structure MarginBreakdown where
  total_margin : ℚ
  span_margin : ℚ
  exposure_margin : ℚ
  span_multiplier : ℚ
  exposure_multiplier : ℚ
  raw_span : ℚ
  raw_exposure : ℚ
deriving DecidableEq, Repr

/-- Embedding of `calculate_position_margin` (margin_calculator.py lines 34-90): validate,
fetch the raw margin from the broker, then apply the multipliers. -/
def calculate_position_margin (m : MarginMultipliers) (api : MarginApi)
    (instrument_name : String) (strike_price : ℚ) (side : String) (qty : ℤ)
    (position_type : String) : Except PyErr MarginBreakdown := do
  let _ ← validate_margin_inputs instrument_name strike_price side qty position_type
  let raw_margin := api instrument_name strike_price side qty position_type
  let span_margin := rawGet raw_margin "span" * m.span
  let exposure_margin := rawGet raw_margin "exposure" * m.exposure
  let total_margin := span_margin + exposure_margin
  .ok { total_margin := total_margin, span_margin := span_margin,
        exposure_margin := exposure_margin, span_multiplier := m.span,
        exposure_multiplier := m.exposure, raw_span := rawGet raw_margin "span",
        raw_exposure := rawGet raw_margin "exposure" }

/-- A position dict as consumed by `calculate_portfolio_margin`; the
`position_type` key may be absent (`position.get` with default "sell"). -/
structure Position where
  instrument_name : String
  strike_price : ℚ
  side : String
  qty : ℤ
  position_type : Option String
deriving DecidableEq, Repr

/-- One element of the `position_details` list: the input position together
with its margin dict. -/
structure PositionDetail where
  position : Position
  margin_details : MarginBreakdown
deriving DecidableEq, Repr

/-- The dict returned by `calculate_portfolio_margin`. -/
structure PortfolioMargin where
  total_portfolio_margin : ℚ
  position_details : List PositionDetail
deriving DecidableEq, Repr

/-- The loop body of `calculate_portfolio_margin` applied to one position. -/
def positionMargin (m : MarginMultipliers) (api : MarginApi) (p : Position) :
    Except PyErr MarginBreakdown :=
  calculate_position_margin m api p.instrument_name p.strike_price p.side p.qty
    (p.position_type.getD "sell")

/-- The `for position in positions` loop of `calculate_portfolio_margin`
(margin_calculator.py lines 105-121), carrying the running total and the
accumulated details (consed, hence reversed on exit). -/
def portfolioGo (m : MarginMultipliers) (api : MarginApi) (total_margin : ℚ)
    (margin_details : List PositionDetail) :
    List Position → Except PyErr PortfolioMargin
  | [] => .ok ⟨total_margin, margin_details.reverse⟩
  | position :: rest => do
    let margin ← positionMargin m api position
    portfolioGo m api (total_margin + margin.total_margin)
      (⟨position, margin⟩ :: margin_details) rest

/-- Embedding of `calculate_portfolio_margin` (margin_calculator.py lines 92-126). -/
def calculate_portfolio_margin (m : MarginMultipliers) (api : MarginApi)
    (positions : List Position) : Except PyErr PortfolioMargin :=
  portfolioGo m api 0 [] positions

/-- The dict returned by `estimate_margin_impact`. -/
structure MarginImpact where
  current_margin : ℚ
  new_margin : ℚ
  margin_impact : ℚ
  percentage_increase : ℚ
deriving DecidableEq, Repr

/-- Embedding of `estimate_margin_impact` (margin_calculator.py lines 128-158):
`percentage_increase = (margin_impact / current_margin) * 100` is plain Python
division and raises `ZeroDivisionError` when the current portfolio margin is 0. -/
def estimate_margin_impact (m : MarginMultipliers) (api : MarginApi)
    (current_positions : List Position) (new_position : Position) :
    Except PyErr MarginImpact := do
  let current_margin ← calculate_portfolio_margin m api current_positions
  let new_margin ← calculate_portfolio_margin m api (current_positions ++ [new_position])
  let margin_impact := new_margin.total_portfolio_margin - current_margin.total_portfolio_margin
  let pct ← qdiv margin_impact current_margin.total_portfolio_margin
  .ok { current_margin := current_margin.total_portfolio_margin,
        new_margin := new_margin.total_portfolio_margin,
        margin_impact := margin_impact,
        percentage_increase := pct * 100 }

/-- The margin dict a position produces when validation succeeds (the pure
image of `calculate_position_margin`). -/
def positionBreakdown (m : MarginMultipliers) (api : MarginApi) (p : Position) :
    MarginBreakdown :=
  let raw_margin := api p.instrument_name p.strike_price p.side p.qty
    (p.position_type.getD "sell")
  { total_margin := rawGet raw_margin "span" * m.span + rawGet raw_margin "exposure" * m.exposure,
    span_margin := rawGet raw_margin "span" * m.span,
    exposure_margin := rawGet raw_margin "exposure" * m.exposure,
    span_multiplier := m.span, exposure_multiplier := m.exposure,
    raw_span := rawGet raw_margin "span", raw_exposure := rawGet raw_margin "exposure" }

/-- A position passes `validate_margin_inputs`. -/
def marginInputsOk (p : Position) : Prop :=
  validate_margin_inputs p.instrument_name p.strike_price p.side p.qty
    (p.position_type.getD "sell") = .ok ()

instance {ε α : Type} [DecidableEq ε] [DecidableEq α] : DecidableEq (Except ε α) :=
  fun x y =>
    match x, y with
    | .ok a, .ok b =>
        if h : a = b then .isTrue (by rw [h]) else .isFalse (fun hh => h (Except.ok.inj hh))
    | .error a, .error b =>
        if h : a = b then .isTrue (by rw [h]) else .isFalse (fun hh => h (Except.error.inj hh))
    | .ok _, .error _ => .isFalse (fun hh => Except.noConfusion hh)
    | .error _, .ok _ => .isFalse (fun hh => Except.noConfusion hh)

instance (p : Position) : Decidable (marginInputsOk p) := by
  unfold marginInputsOk; infer_instance

/-- Sample broker API used in concrete scenarios: quotes span 10000 and
exposure 5000 for every request (the values of the unit test of the
repository and of concrete scenario 1 of the spec). -/
def sampleApi : MarginApi := fun _ _ _ _ _ => [("span", 10000), ("exposure", 5000)]

/-- A broker API whose response dict is missing both margin keys. -/
def emptyApi : MarginApi := fun _ _ _ _ _ => []

/-- Sample valid positions. -/
def posNifty : Position :=
  { instrument_name := "NIFTY", strike_price := 18000, side := "CE", qty := 1,
    position_type := some "sell" }

def posBank : Position :=
  { instrument_name := "BANKNIFTY", strike_price := 44000, side := "PE", qty := 2,
    position_type := none }

/-- Sample premium-metrics report (the keys produced by
`calculate_premium_metrics`; there is no key spelled "pre mium"). -/
noncomputable def sampleMetrics : List (String × RFloat) :=
  [("premium", .fin 10), ("total_premium", .fin 500), ("daily_theta_decay", .fin 2),
   ("max_profit", .fin 90), ("max_loss", .fin 10)]

/-! Reduction lemmas for RFloat. -/

theorem RFloat.add_fin (x y : ℝ) : RFloat.add (.fin x) (.fin y) = .fin (x + y) := rfl

theorem RFloat.sub_fin (x y : ℝ) : RFloat.sub (.fin x) (.fin y) = .fin (x - y) := rfl

theorem RFloat.mul_fin (x y : ℝ) : RFloat.mul (.fin x) (.fin y) = .fin (x * y) := rfl

theorem RFloat.neg_fin (x : ℝ) : RFloat.neg (.fin x) = .fin (-x) := rfl

theorem RFloat.sq_fin (x : ℝ) : (RFloat.fin x).sq = .fin (x * x) := rfl

theorem RFloat.exp_fin (x : ℝ) : RFloat.exp (.fin x) = .fin (Real.exp x) := rfl

theorem RFloat.cdf_fin (Φ : ℝ → ℝ) (x : ℝ) : RFloat.cdf Φ (.fin x) = .fin (Φ x) := rfl

theorem RFloat.div_fin (x y : ℝ) (hy : y ≠ 0) :
    RFloat.div (.fin x) (.fin y) = .fin (x / y) := by
  simp [RFloat.div, hy]

theorem RFloat.sqrt_fin (x : ℝ) (hx : 0 ≤ x) :
    RFloat.sqrt (.fin x) = .fin (Real.sqrt x) := by
  simp [RFloat.sqrt, not_lt.mpr hx]

theorem RFloat.log_fin (x : ℝ) (hx : 0 < x) :
    RFloat.log (.fin x) = .fin (Real.log x) := by
  simp [RFloat.log, not_lt.mpr hx.le, hx.ne']

theorem RFloat.pymax_zero_fin (v : ℝ) :
    RFloat.pymax (.fin 0) (.fin v) = .fin (max 0 v) := by
  rcases lt_or_le 0 v with h | h
  · simp [RFloat.pymax, RFloat.lt, h, max_eq_right h.le]
  · simp [RFloat.pymax, RFloat.lt, not_lt.mpr h, max_eq_left h]

/-- On positive market inputs `calculate_theoretical_premium` stays finite and
computes exactly the real Black-Scholes price `bsPrice`. -/
theorem calculate_theoretical_premium_fin (Φ : ℝ → ℝ) (S K sigma : ℝ) (days : ℤ)
    (side : Side) (hS : 0 < S) (hK : 0 < K) (hsig : 0 < sigma) (hd : 0 < days) :
    calculate_theoretical_premium Φ S K days sigma side =
      .ok (.fin (bsPrice Φ S K ((days : ℝ) / 365) sigma side)) := by
  have hdR : (0 : ℝ) < (days : ℝ) := by exact_mod_cast hd
  have hT : (0 : ℝ) < (days : ℝ) / 365 := by positivity
  have hK' : K ≠ 0 := hK.ne'
  have hSK : 0 < S / K := div_pos hS hK
  have hsqrt : 0 < Real.sqrt ((days : ℝ) / 365) := Real.sqrt_pos.mpr hT
  have hden : sigma * Real.sqrt ((days : ℝ) / 365) ≠ 0 := (mul_pos hsig hsqrt).ne'
  have hsd : 0 < Real.sqrt (days : ℝ) := Real.sqrt_pos.mpr hdR
  have h365 : 0 < Real.sqrt 365 := Real.sqrt_pos.mpr (by norm_num)
  have hden2 : sigma * (Real.sqrt (days : ℝ) / Real.sqrt 365) ≠ 0 :=
    (mul_pos hsig (div_pos hsd h365)).ne'
  have h2 : (2 : ℝ) ≠ 0 := by norm_num
  cases side <;>
    simp [calculate_theoretical_premium, bsPrice, RFloat.add_fin, RFloat.sub_fin,
      RFloat.mul_fin, RFloat.neg_fin, RFloat.sq_fin, RFloat.exp_fin, RFloat.cdf_fin,
      RFloat.div_fin, RFloat.sqrt_fin, RFloat.log_fin, hK', hSK, hT.le, hden, hden2, h2]

/-! Monadic reduction lemmas. -/

theorem ok_bind {ε α β : Type} (a : α) (f : α → Except ε β) :
    (Except.ok a : Except ε α) >>= f = f a := rfl

theorem error_bind {ε α β : Type} (e : ε) (f : α → Except ε β) :
    (Except.error e : Except ε α) >>= f = Except.error e := rfl

theorem map_ok {ε α β : Type} (f : α → β) (a : α) :
    (Except.ok a : Except ε α).map f = .ok (f a) := rfl

theorem map_error {ε α β : Type} (f : α → β) (e : ε) :
    (Except.error e : Except ε α).map f = .error e := rfl

/-! Margin aggregator lemmas. -/

/-- A valid position produces exactly its `positionBreakdown`. -/
theorem positionMargin_ok (m : MarginMultipliers) (api : MarginApi) (p : Position)
    (hp : marginInputsOk p) :
    positionMargin m api p = .ok (positionBreakdown m api p) := by
  unfold marginInputsOk at hp
  simp [positionMargin, calculate_position_margin, positionBreakdown, hp, ok_bind]

/-- Invariant of the portfolio loop: on all-valid positions it returns the
running total plus the sum of the per-position totals, and the details in
input order appended to the accumulator. -/
theorem portfolioGo_eq (m : MarginMultipliers) (api : MarginApi) (ps : List Position) :
    ∀ (t : ℚ) (acc : List PositionDetail), (∀ p ∈ ps, marginInputsOk p) →
      portfolioGo m api t acc ps =
        .ok ⟨t + (ps.map (fun p => (positionBreakdown m api p).total_margin)).sum,
             acc.reverse ++ ps.map (fun p => ⟨p, positionBreakdown m api p⟩)⟩ := by
  induction ps with
  | nil => intro t acc _; simp [portfolioGo]
  | cons p rest ih =>
    intro t acc hv
    have hp := hv p (List.mem_cons_self p rest)
    have hrest : ∀ q ∈ rest, marginInputsOk q :=
      fun q hq => hv q (List.mem_cons_of_mem p hq)
    rw [portfolioGo, positionMargin_ok m api p hp, ok_bind,
      ih (t + (positionBreakdown m api p).total_margin) (⟨p, positionBreakdown m api p⟩ :: acc)
        hrest]
    simp [add_assoc]

/-- `calculate_portfolio_margin` on all-valid positions: the total is the sum
of the per-position totals and the details are in input order. -/
theorem calculate_portfolio_margin_eq (m : MarginMultipliers) (api : MarginApi)
    (ps : List Position) (hv : ∀ p ∈ ps, marginInputsOk p) :
    calculate_portfolio_margin m api ps =
      .ok ⟨(ps.map (fun p => (positionBreakdown m api p).total_margin)).sum,
           ps.map (fun p => ⟨p, positionBreakdown m api p⟩)⟩ := by
  rw [calculate_portfolio_margin, portfolioGo_eq m api ps 0 [] hv]
  simp

/-! Claims. -/

/-- C7: permuting the positions leaves `total_portfolio_margin` unchanged,
while `position_details` follows the respective input order (element `i`
corresponds to position `i`). -/
theorem claim_C7_portfolio_perm (m : MarginMultipliers) (api : MarginApi)
    (ps ps' : List Position) (hperm : ps.Perm ps') (hv : ∀ p ∈ ps, marginInputsOk p) :
    ∃ r r' : PortfolioMargin,
      calculate_portfolio_margin m api ps = .ok r ∧
      calculate_portfolio_margin m api ps' = .ok r' ∧
      r.total_portfolio_margin = r'.total_portfolio_margin ∧
      r.position_details.map PositionDetail.position = ps ∧
      r'.position_details.map PositionDetail.position = ps' := by
  have hv' : ∀ p ∈ ps', marginInputsOk p := fun p hp => hv p (hperm.mem_iff.mpr hp)
  refine ⟨_, _, calculate_portfolio_margin_eq m api ps hv,
    calculate_portfolio_margin_eq m api ps' hv', ?_, ?_, ?_⟩
  · exact (hperm.map _).sum_eq
  · simp [Function.comp_def]
  · simp [Function.comp_def]

/-- C7 witness: a concrete two-position portfolio and its swap. -/
theorem claim_C7_witness :
    ([posNifty, posBank]).Perm [posBank, posNifty] ∧
    (∀ p ∈ [posNifty, posBank], marginInputsOk p) ∧
    ∃ r r' : PortfolioMargin,
      calculate_portfolio_margin defaultMarginMultipliers sampleApi [posNifty, posBank] = .ok r ∧
      calculate_portfolio_margin defaultMarginMultipliers sampleApi [posBank, posNifty] = .ok r' ∧
      r.total_portfolio_margin = r'.total_portfolio_margin ∧
      r.position_details.map PositionDetail.position = [posNifty, posBank] ∧
      r'.position_details.map PositionDetail.position = [posBank, posNifty] :=
  ⟨List.Perm.swap posBank posNifty [], by decide,
   claim_C7_portfolio_perm defaultMarginMultipliers sampleApi [posNifty, posBank]
     [posBank, posNifty] (List.Perm.swap posBank posNifty []) (by decide)⟩

/-- C6 (amended): when the current portfolio margin totals 0,
`estimate_margin_impact` raises the generic Python `ZeroDivisionError` from
`(margin_impact / current_margin) * 100`; there is no bespoke
"empty baseline" domain error in the code, and no Inf/NaN is returned. -/
theorem claim_C6_zero_baseline (m : MarginMultipliers) (api : MarginApi)
    (current_positions : List Position) (new_position : Position) (r r' : PortfolioMargin)
    (h1 : calculate_portfolio_margin m api current_positions = .ok r)
    (h0 : r.total_portfolio_margin = 0)
    (h2 : calculate_portfolio_margin m api (current_positions ++ [new_position]) = .ok r') :
    estimate_margin_impact m api current_positions new_position = .error .zeroDivision := by
  simp [estimate_margin_impact, h1, h2, ok_bind, error_bind, qdiv, h0]

/-- C6 witness: empty current portfolio (margin total 0), valid new position. -/
theorem claim_C6_witness :
    calculate_portfolio_margin defaultMarginMultipliers sampleApi [] = .ok ⟨0, []⟩ ∧
    (0 : ℚ) = 0 ∧
    estimate_margin_impact defaultMarginMultipliers sampleApi [] posNifty =
      .error .zeroDivision :=
  ⟨rfl, rfl,
   claim_C6_zero_baseline defaultMarginMultipliers sampleApi [] posNifty ⟨0, []⟩ _ rfl rfl
     (calculate_portfolio_margin_eq defaultMarginMultipliers sampleApi ([] ++ [posNifty])
       (by decide))⟩

/-- C6 counterexample: with a zero current margin the error actually raised is
`ZeroDivisionError`, which is not the distinguishable "empty baseline" domain
error the claim requires. -/
theorem claim_C6_counterexample :
    estimate_margin_impact defaultMarginMultipliers sampleApi [] posNifty =
      .error .zeroDivision ∧
    (Except.error PyErr.zeroDivision : Except PyErr MarginImpact) ≠
      .error (.domainError "empty baseline") :=
  ⟨by decide, by decide⟩

/-- C8: position margin is `raw.span × span_mult` + `raw.exposure ×
exposure_mult`, for arbitrary multipliers and broker-quoted raw margins. -/
theorem claim_C8_position_margin (m : MarginMultipliers) (api : MarginApi)
    (instrument_name : String) (strike_price : ℚ) (side : String) (qty : ℤ)
    (position_type : String)
    (hv : validate_margin_inputs instrument_name strike_price side qty position_type = .ok ()) :
    calculate_position_margin m api instrument_name strike_price side qty position_type =
      .ok { total_margin :=
              rawGet (api instrument_name strike_price side qty position_type) "span" * m.span +
              rawGet (api instrument_name strike_price side qty position_type) "exposure" *
                m.exposure,
            span_margin :=
              rawGet (api instrument_name strike_price side qty position_type) "span" * m.span,
            exposure_margin :=
              rawGet (api instrument_name strike_price side qty position_type) "exposure" *
                m.exposure,
            span_multiplier := m.span, exposure_multiplier := m.exposure,
            raw_span := rawGet (api instrument_name strike_price side qty position_type) "span",
            raw_exposure :=
              rawGet (api instrument_name strike_price side qty position_type) "exposure" } := by
  simp [calculate_position_margin, hv, ok_bind]

/-- C8 witness: concrete scenario 1 of the spec (also the unit
test): span 10000, exposure 5000 with the default multipliers give
10000 / 2500 / 12500. -/
theorem claim_C8_witness :
    validate_margin_inputs "NIFTY" 18000 "CE" 1 "sell" = .ok () ∧
    calculate_position_margin defaultMarginMultipliers sampleApi "NIFTY" 18000 "CE" 1 "sell" =
      .ok ⟨12500, 10000, 2500, 1, 1/2, 10000, 5000⟩ :=
  ⟨by decide,
   (claim_C8_position_margin defaultMarginMultipliers sampleApi "NIFTY" 18000 "CE" 1 "sell"
     (by decide)).trans
     (by
       have hb : ("exposure" == "span") = false := by decide
       norm_num [rawGet, sampleApi, defaultMarginMultipliers, List.lookup, hb])⟩

/-- C10: a missing "span"/"exposure" key in the broker response is
silently read as 0 (`dict.get` default) and a fully-populated breakdown is
returned; with both keys missing the total margin is 0. -/
theorem claim_C10_missing_keys (m : MarginMultipliers) (api : MarginApi)
    (instrument_name : String) (strike_price : ℚ) (side : String) (qty : ℤ)
    (position_type : String)
    (hv : validate_margin_inputs instrument_name strike_price side qty position_type = .ok ()) :
    ((api instrument_name strike_price side qty position_type).lookup "span" = none →
      (api instrument_name strike_price side qty position_type).lookup "exposure" = none →
      calculate_position_margin m api instrument_name strike_price side qty position_type =
        .ok ⟨0, 0, 0, m.span, m.exposure, 0, 0⟩) ∧
    ((api instrument_name strike_price side qty position_type).lookup "span" = none →
      calculate_position_margin m api instrument_name strike_price side qty position_type =
        .ok ⟨rawGet (api instrument_name strike_price side qty position_type) "exposure" *
               m.exposure,
             0,
             rawGet (api instrument_name strike_price side qty position_type) "exposure" *
               m.exposure,
             m.span, m.exposure, 0,
             rawGet (api instrument_name strike_price side qty position_type) "exposure"⟩) ∧
    ((api instrument_name strike_price side qty position_type).lookup "exposure" = none →
      calculate_position_margin m api instrument_name strike_price side qty position_type =
        .ok ⟨rawGet (api instrument_name strike_price side qty position_type) "span" * m.span,
             rawGet (api instrument_name strike_price side qty position_type) "span" * m.span,
             0, m.span, m.exposure,
             rawGet (api instrument_name strike_price side qty position_type) "span", 0⟩) := by
  refine ⟨fun hs he => ?_, fun hs => ?_, fun he => ?_⟩
  · simp [calculate_position_margin, hv, ok_bind, rawGet, hs, he]
  · simp [calculate_position_margin, hv, ok_bind, rawGet, hs]
  · simp [calculate_position_margin, hv, ok_bind, rawGet, he]

/-- C10 witness: a broker response with no keys at all yields the zero
breakdown instead of failing. -/
theorem claim_C10_witness :
    validate_margin_inputs "NIFTY" 18000 "CE" 1 "sell" = .ok () ∧
    (emptyApi "NIFTY" 18000 "CE" 1 "sell").lookup "span" = none ∧
    (emptyApi "NIFTY" 18000 "CE" 1 "sell").lookup "exposure" = none ∧
    calculate_position_margin defaultMarginMultipliers emptyApi "NIFTY" 18000 "CE" 1 "sell" =
      .ok ⟨0, 0, 0, 1, 1/2, 0, 0⟩ :=
  ⟨by decide, rfl, rfl,
   ((claim_C10_missing_keys defaultMarginMultipliers emptyApi "NIFTY" 18000 "CE" 1 "sell"
     (by decide)).1 rfl rfl).trans rfl⟩

/-- Algebraic put-call parity of the real Black-Scholes formula: only the
symmetry `Φ x + Φ (-x) = 1` of the normal cdf is used. -/
theorem bsPrice_parity (Φ : ℝ → ℝ) (hΦ : ∀ x, Φ x + Φ (-x) = 1) (S K T sigma : ℝ) :
    bsPrice Φ S K T sigma .CE - bsPrice Φ S K T sigma .PE =
      S - K * Real.exp (-(risk_free_rate * T)) := by
  unfold bsPrice
  have h1 := hΦ ((Real.log (S / K) + (risk_free_rate + sigma * sigma / 2) * T) /
    (sigma * Real.sqrt T))
  have h2 := hΦ ((Real.log (S / K) + (risk_free_rate + sigma * sigma / 2) * T) /
    (sigma * Real.sqrt T) - sigma * Real.sqrt T)
  ring_nf
  ring_nf at h1 h2
  linear_combination S * h1 - K * Real.exp (-(risk_free_rate * T)) * h2

/-- C1: on a well-formed premium-metrics report (keys as produced by
`calculate_premium_metrics`), `analyze_premium_decay` does not produce any
decay row: its first iteration raises `KeyError` on the misspelled dict key
"pre mium" of premium_analyzer.py line 299. -/
theorem claim_C1_decay_keyError :
    analyze_premium_decay sampleMetrics [1] = .error (.keyError "pre mium") := by
  simp [analyze_premium_decay, sampleMetrics, dictGet, List.lookup, ok_bind, error_bind]

/-- C3: put-call parity.  For positive S, K, σ and days_to_expiry, and any
cdf Φ with the normal symmetry `Φ x + Φ (-x) = 1` (which the standard normal
cdf satisfies), the CALL price minus the PUT price computed by
`calculate_theoretical_premium` equals exactly `S - K·exp(-r·T)` in the
real-valued float model. -/
theorem claim_C3_put_call_parity (Φ : ℝ → ℝ) (hΦ : ∀ x, Φ x + Φ (-x) = 1)
    (S K sigma : ℝ) (days : ℤ)
    (hS : 0 < S) (hK : 0 < K) (hsig : 0 < sigma) (hd : 0 < days) :
    ∃ c p : ℝ,
      calculate_theoretical_premium Φ S K days sigma .CE = .ok (.fin c) ∧
      calculate_theoretical_premium Φ S K days sigma .PE = .ok (.fin p) ∧
      c - p = S - K * Real.exp (-(risk_free_rate * ((days : ℝ) / 365))) :=
  ⟨_, _, calculate_theoretical_premium_fin Φ S K sigma days .CE hS hK hsig hd,
   calculate_theoretical_premium_fin Φ S K sigma days .PE hS hK hsig hd,
   bsPrice_parity Φ hΦ S K ((days : ℝ) / 365) sigma⟩

/-- C3 witness: parity at S = K = σ = 1, days_to_expiry = 1, with the
symmetric cdf `constHalf`. -/
theorem claim_C3_witness :
    (∀ x : ℝ, constHalf x + constHalf (-x) = 1) ∧
    (0 : ℝ) < 1 ∧ (0 : ℤ) < 1 ∧
    ∃ c p : ℝ,
      calculate_theoretical_premium constHalf 1 1 1 1 .CE = .ok (.fin c) ∧
      calculate_theoretical_premium constHalf 1 1 1 1 .PE = .ok (.fin p) ∧
      c - p = 1 - 1 * Real.exp (-(risk_free_rate * (((1 : ℤ) : ℝ) / 365))) :=
  ⟨fun _ => add_halves 1, zero_lt_one, zero_lt_one,
   claim_C3_put_call_parity constHalf (fun _ => add_halves 1) 1 1 1 1
     zero_lt_one zero_lt_one zero_lt_one zero_lt_one⟩

/-- C4 counterexample: for a CALL, `_calculate_max_profit` returns the IEEE
float infinity itself — the very value the claim says must not be used — and
that infinity propagates through subsequent float arithmetic
(`inf - 5 = inf`). -/
theorem claim_C4_counterexample :
    calculate_max_profit (.fin 5) (.fin 100) .CE = RFloat.inf ∧
    RFloat.sub (calculate_max_profit (.fin 5) (.fin 100) .CE) (.fin 5) = RFloat.inf :=
  ⟨rfl, rfl⟩

/-- C4 (amended): `_calculate_max_profit` returns the floating-point infinity
`float("inf")` for every CALL (not a tagged "unbounded" variant), and
`max(0, strike_price - premium)` for every PUT. -/
theorem claim_C4_max_profit (p k : ℝ) :
    calculate_max_profit (.fin p) (.fin k) .CE = RFloat.inf ∧
    calculate_max_profit (.fin p) (.fin k) .PE = .fin (max 0 (k - p)) := by
  refine ⟨rfl, ?_⟩
  simp [calculate_max_profit, RFloat.sub_fin, RFloat.pymax_zero_fin]

/-- C5 (amended): the risk/reward ratio of premium_analyzer.py line 266 equals
`abs(max_loss / max_profit)` whenever `max_profit != float("inf")` and the
divisor is non-zero; it equals 0 when `max_profit` is the float infinity; and
when `max_profit = 0` it raises `ZeroDivisionError` instead of returning 0. -/
theorem claim_C5_risk_reward (ml mp : RFloat) :
    (mp = RFloat.inf → riskReward ml mp = .ok (.fin 0)) ∧
    (mp = .fin 0 → riskReward ml mp = .error .zeroDivision) ∧
    (∀ y : ℝ, mp = .fin y → y ≠ 0 →
      riskReward ml mp = .ok (RFloat.pyabs (RFloat.div ml mp))) := by
  refine ⟨?_, ?_, ?_⟩
  · rintro rfl
    rfl
  · rintro rfl
    simp [riskReward, pydiv, RFloat.isInf, map_ok, map_error]
  · rintro y rfl hy
    simp [riskReward, pydiv, RFloat.isInf, map_ok, map_error, hy]

/-- C5 witness: the three behaviours at concrete inputs. -/
theorem claim_C5_witness :
    (2 : ℝ) ≠ 0 ∧
    riskReward (.fin 3) RFloat.inf = .ok (.fin 0) ∧
    riskReward (.fin 3) (.fin 0) = .error .zeroDivision ∧
    riskReward (.fin 3) (.fin 2) = .ok (RFloat.pyabs (RFloat.div (.fin 3) (.fin 2))) :=
  ⟨two_ne_zero, (claim_C5_risk_reward (.fin 3) RFloat.inf).1 rfl,
   (claim_C5_risk_reward (.fin 3) (.fin 0)).2.1 rfl,
   (claim_C5_risk_reward (.fin 3) (.fin 2)).2.2 2 rfl two_ne_zero⟩

/-- C5 counterexample: at `max_profit = 0` the code raises
`ZeroDivisionError`; it does not return the 0 the claim specifies. -/
theorem claim_C5_counterexample :
    riskReward (.fin 5) (.fin 0) = .error .zeroDivision ∧
    riskReward (.fin 5) (.fin 0) ≠ .ok (.fin 0) := by
  constructor
  · simp [riskReward, pydiv, RFloat.isInf, map_error]
  · simp [riskReward, pydiv, RFloat.isInf, map_error]

/-- C9: every call of `calculate_premium_metrics` fails before any premium or
Greek is computed: its first statement looks up the validator method
`validate_premium_inputs`, which the `DataValidator` class does not define,
so Python raises `AttributeError` unconditionally. -/
theorem claim_C9_attribute_error (Φ φ : ℝ → ℝ) (current_price strike_price : ℝ)
    (days_to_expiry : ℤ) (volatility : ℝ) (side : Side) (lot_size : ℤ) :
    calculate_premium_metrics Φ φ current_price strike_price days_to_expiry volatility
      side lot_size = .error (.attributeError "validate_premium_inputs") := by
  rw [calculate_premium_metrics, if_neg (by decide)]
